import Mathlib

/-!
Verification of the CADQuery MCP server core (`src/my_server/server.py`):
the axis-relative workplane placement resolver and the in-memory model
registry (`GlobalModelManager`).  Python floats are embedded as `ℚ`, the
registry dictionaries as structures, and every tool function as an explicit
state transformer.  The external geometry kernel and renderer are
collaborators: the placement parameters the core hands to them are recorded
in a `Solid` record, and the renderer outcome is an explicit argument.
-/

namespace CQMCP

/-- The 2D profile handed to the geometry kernel before extrusion:
`wp.rect(width, height)` or `wp.circle(radius)`. -/
inductive Profile where
  | rect (width height : ℚ)
  | circle (radius : ℚ)
deriving DecidableEq, Repr

/-- The placement parameters the core passes to the geometry kernel to
materialize one solid: the named base plane of `cq.Workplane(...)`, the
`origin=` of the first `.workplane(...)` call, the `offset=` of the second
`.workplane(...)` call, the 2D profile, and the extrusion length passed to
`.extrude(...)`. -/
structure Solid where
  plane : String
  origin : ℚ × ℚ × ℚ
  offset : ℚ
  profile : Profile
  length : ℚ
deriving DecidableEq, Repr

/-- One line of a boundary description string.  The Python code builds a
newline-separated string of `label: payload` segments; we keep each segment
structured, with the literal label text and the interpolated numbers. -/
inductive BLine where
  /-- Segment of the form `label: lo->hi`. -/
  | range (label : String) (lo hi : ℚ)
  /-- Segment of the form `label: (c1, c2)`. -/
  | center (label : String) (c1 c2 : ℚ)
  /-- Segment of the form `label: v`. -/
  | scalar (label : String) (v : ℚ)
deriving DecidableEq, Repr

/-- A boundary description: the list of lines of the boundary string. -/
abbrev Boundary := List BLine

/-- The dictionary built by `GlobalModelManager.add_model`. -/
structure ModelInfo where
  id : ℕ
  name : String
  type : String
  boundary : Boundary
deriving DecidableEq, Repr

/-- One record produced by `GlobalModelManager.get_all_models_info`.
The `parameters`, `workplane` and `extrude_direction` fields are read with
`model.get(..., default)`; the creation paths never populate them, so they
always take their defaults. -/
structure Summary where
  id : ℕ
  type : String
  parameters : List (String × String)
  workplane : String
  extrude_direction : String
deriving DecidableEq, Repr

/-- The state of `GlobalModelManager`: the ordered `models` list and the
combined assembly, embedded as the ordered list of solids added to it. -/
structure State where
  models : List ModelInfo
  assembly : List Solid
deriving DecidableEq, Repr

/-- State built by `GlobalModelManager.__init__`: empty model list, fresh
empty assembly. -/
def initState : State := { models := [], assembly := [] }

/-- Method `GlobalModelManager.add_model`: builds the info record with
`id = len(self.models) + 1`, appends it to `models`, and merges the shape
into the combined assembly with `self.current_assembly.add(shape)`. -/
def add_model (s : State) (name : String) (shape : Solid) (shape_type : String)
    (boundary : Boundary) : ModelInfo × State :=
  let model_info : ModelInfo :=
    { id := s.models.length + 1, name := name, type := shape_type, boundary := boundary }
  (model_info, { models := s.models ++ [model_info], assembly := s.assembly ++ [shape] })

/-- Method `GlobalModelManager.get_all_models_info`. -/
def get_all_models_info (s : State) : List Summary :=
  s.models.map (fun m =>
    { id := m.id, type := m.type, parameters := [], workplane := "",
      extrude_direction := "" })

/-- Method `GlobalModelManager.get_combined_model`: returns the combined
assembly. -/
def get_combined_model (s : State) : List Solid := s.assembly

/-- Method `GlobalModelManager.clear_all`: `self.models = []` and
`self.current_assembly = cq.Assembly()`. -/
def clear_all (_ : State) : State := { models := [], assembly := [] }

/-- The session configuration values the tools read with `config.get`:
`debug_mode` (default `False`), `max_models` (default `100`),
`server_token` (default `None`). -/
structure Config where
  debug_mode : Bool := false
  max_models : Option ℕ := none
  server_token : Option String := none
deriving DecidableEq, Repr

/-- The lookup `config.get(max_models, 100)`: stored value or default 100. -/
def maxModels (c : Config) : ℕ := c.max_models.getD 100

/-- Token check `validate_server_access`: parsed per Python precedence as
`(token is not None and len(token.strip()) > 0) if token else True`,
so a `None` or empty token is accepted and a non-empty token is accepted
iff it is not whitespace-only. -/
def validate_server_access (server_token : Option String) : Bool :=
  match server_token with
  | none => true
  | some t => if t = "" then true else decide (0 < t.trim.length)

/-- The axis values handled by the `match` statements: `"X"`, `"Y"`, `"Z"`. -/
def isValidAxis (axi : String) : Bool :=
  axi = "X" || axi = "Y" || axi = "Z"

/-- The workplane placement of `create_box_Axi_W_H` lines 174-183:
`match` on the axis string selects the base plane and the 3D origin
(`extrude_start` in the axis's own slot, the two origin coordinates in the
other two slots), then `wp = wp.workplane(offset=extrude_start)` adds the
offset, and `.extrude(extrude_end - extrude_start)` fixes the length.
An axis outside the three cases leaves `wp` unbound (no case matches), so
no placement is produced: `none`. -/
def boxPlacement (axi : String) (x1 x2 w h es ee : ℚ) : Option Solid :=
  if axi = "X" then
    some { plane := "YZ", origin := (es, x1, x2), offset := es,
           profile := .rect w h, length := ee - es }
  else if axi = "Y" then
    some { plane := "XZ", origin := (x1, es, x2), offset := es,
           profile := .rect w h, length := ee - es }
  else if axi = "Z" then
    some { plane := "XY", origin := (x1, x2, es), offset := es,
           profile := .rect w h, length := ee - es }
  else none

/-- The workplane placement of `create_cylinder_Axi_R` lines 247-257:
identical plane/origin/offset selection, circle profile. -/
def cylinderPlacement (axi : String) (x1 x2 r es ee : ℚ) : Option Solid :=
  if axi = "X" then
    some { plane := "YZ", origin := (es, x1, x2), offset := es,
           profile := .circle r, length := ee - es }
  else if axi = "Y" then
    some { plane := "XZ", origin := (x1, es, x2), offset := es,
           profile := .circle r, length := ee - es }
  else if axi = "Z" then
    some { plane := "XY", origin := (x1, x2, es), offset := es,
           profile := .circle r, length := ee - es }
  else none

/-- The boundary f-strings of `create_box_Axi_W_H` lines 188-194, one list
entry per newline-separated `label: payload` segment. -/
def boxBoundary (axi : String) (x1 x2 w h es ee : ℚ) : Boundary :=
  if axi = "X" then
    [.range "X_boundary" es ee,
     .range "Y_boundary" (x1 - w / 2) (x1 + w / 2),
     .range "Height" (x2 - h / 2) (x2 + h / 2)]
  else if axi = "Y" then
    [.range "X_boundary" (x1 - w / 2) (x1 + w / 2),
     .range "Y_boundary" es ee,
     .range "Height" (x2 - h / 2) (x2 + h / 2)]
  else if axi = "Z" then
    [.range "X_boundary" (x1 - w / 2) (x1 + w / 2),
     .range "Y_boundary" (x2 - h / 2) (x2 + h / 2),
     .range "Height" es ee]
  else []

/-- The boundary f-strings of `create_cylinder_Axi_R` lines 261-267. -/
def cylinderBoundary (axi : String) (x1 x2 r es ee : ℚ) : Boundary :=
  if axi = "X" then
    [.range "X_boundary" es ee,
     .center "YZ_circle_center" x1 x2,
     .scalar "Radius" r]
  else if axi = "Y" then
    [.range "Y_boundary" es ee,
     .center "XZ_circle_center" x1 x2,
     .scalar "Radius" r]
  else if axi = "Z" then
    [.range "Z_boundary" es ee,
     .center "XY_circle_center" x1 x2,
     .scalar "Radius" r]
  else []

/-- Modelled from the spec: the geometry-kernel collaborator is external
(cadquery); §4.1 step 1 fixes the named base planes so that the plane's
normal is the chosen axis (`YZ → X`, `XZ → Y`, `XY → Z`), and §6 exposes
`workplane.offset(distance)` as moving the workplane by `distance` along
that normal. -/
def planeNormal (plane : String) : ℚ × ℚ × ℚ :=
  if plane = "YZ" then (1, 0, 0)
  else if plane = "XZ" then (0, 1, 0)
  else if plane = "XY" then (0, 0, 1)
  else (0, 0, 0)

/-- The actual position of the workplane the profile is drawn on: the
origin of the first `.workplane(origin=...)` call displaced by the second
call's `offset` along the base plane's normal. -/
def resultingPlanePos (s : Solid) : ℚ × ℚ × ℚ :=
  (s.origin.1 + s.offset * (planeNormal s.plane).1,
   s.origin.2.1 + s.offset * (planeNormal s.plane).2.1,
   s.origin.2.2 + s.offset * (planeNormal s.plane).2.2)

/-- Insertion of a value into the chosen axis's coordinate slot, the other
two slots holding `x1`, `x2` in fixed order (§4.1 step 2). -/
def axisSlotInsert (axi : String) (v x1 x2 : ℚ) : ℚ × ℚ × ℚ :=
  if axi = "X" then (v, x1, x2)
  else if axi = "Y" then (x1, v, x2)
  else (x1, x2, v)

/-- The base plane selected for an axis: the plane spanned by the two
remaining global axes. -/
def remainingPlane (axi : String) : String :=
  if axi = "X" then "YZ"
  else if axi = "Y" then "XZ"
  else if axi = "Z" then "XY"
  else ""

/-- Outcome of a creation tool call.  `ok` carries the returned model info
and the reported `total_models`; `tokenError` and `limitError` are the two
early-return JSON error messages; `axisUnhandled` is the unhandled axis
case, where `wp = wp.workplane(offset=...)` hits an unbound `wp` and the
exception escapes with no placement produced and no declared error. -/
inductive CreateResult where
  | ok (info : ModelInfo) (total_models : ℕ)
  | tokenError
  | limitError (limit : ℕ)
  | axisUnhandled
deriving DecidableEq, Repr

/-- The `create_box_Axi_W_H` tool: token check, model-count limit check,
workplane placement, extrusion, `add_model` with the boundary string. -/
def create_box_Axi_W_H (cfg : Config) (st : State) (model_name : String)
    (rect_workplane_axi : String) (x1 x2 w h es ee : ℚ) : CreateResult × State :=
  if ¬ validate_server_access cfg.server_token then (.tokenError, st)
  else if st.models.length ≥ maxModels cfg then (.limitError (maxModels cfg), st)
  else
    match boxPlacement rect_workplane_axi x1 x2 w h es ee with
    | none => (.axisUnhandled, st)
    | some box =>
      let (model_info, st') :=
        add_model st model_name box "box" (boxBoundary rect_workplane_axi x1 x2 w h es ee)
      (.ok model_info st'.models.length, st')

/-- The `create_cylinder_Axi_R` tool: same structure with a circle profile
and the cylinder boundary string. -/
def create_cylinder_Axi_R (cfg : Config) (st : State) (model_name : String)
    (circle_workplane_axi : String) (x1 x2 r es ee : ℚ) : CreateResult × State :=
  if ¬ validate_server_access cfg.server_token then (.tokenError, st)
  else if st.models.length ≥ maxModels cfg then (.limitError (maxModels cfg), st)
  else
    match cylinderPlacement circle_workplane_axi x1 x2 r es ee with
    | none => (.axisUnhandled, st)
    | some cyl =>
      let (model_info, st') :=
        add_model st model_name cyl "cylinder"
          (cylinderBoundary circle_workplane_axi x1 x2 r es ee)
      (.ok model_info st'.models.length, st')

/-- Outcome of the `visualize_models` tool.  `renderFailed` is the
`except Exception` branch, carrying the `"可视化失败: {e}"` message and the
`str(e)` error field of the returned failure JSON. -/
inductive VisResult where
  | tokenError
  | noModels
  | rendered (models_info : List Summary) (models_count : ℕ)
      (width height : ℕ) (interact : Bool) (screenshot : Option String)
  | renderFailed (message : String) (error : String)
deriving DecidableEq, Repr

/-- The `visualize_models` tool.  The external renderer call `show(assembly)`
is represented by its outcome `renderOutcome`: `.ok` when it returns,
`.error e` when it raises an exception with text `e`. -/
def visualize_models (cfg : Config) (st : State) (width height : ℕ)
    (screenshot : Option String) (interact : Bool)
    (renderOutcome : Except String Unit) : VisResult × State :=
  if ¬ validate_server_access cfg.server_token then (.tokenError, st)
  else if st.models.isEmpty then (.noModels, st)
  else
    match renderOutcome with
    | .error e => (.renderFailed (String.append "可视化失败: " e) e, st)
    | .ok _ =>
      (.rendered (get_all_models_info st) st.models.length width height
        interact screenshot, st)

/-- One successful-or-not creation tool call, box or cylinder in any mix. -/
inductive CallSpec where
  | box (name axi : String) (x1 x2 w h es ee : ℚ)
  | cyl (name axi : String) (x1 x2 r es ee : ℚ)
deriving DecidableEq, Repr

/-- The axis argument of a call. -/
def CallSpec.axis : CallSpec → String
  | .box _ a _ _ _ _ _ _ => a
  | .cyl _ a _ _ _ _ _ => a

/-- Dispatch one creation call. -/
def runCall (cfg : Config) (st : State) : CallSpec → CreateResult × State
  | .box n a x1 x2 w h es ee => create_box_Axi_W_H cfg st n a x1 x2 w h es ee
  | .cyl n a x1 x2 r es ee => create_cylinder_Axi_R cfg st n a x1 x2 r es ee

/-- Run a sequence of creation calls, threading the registry state. -/
def runCalls (cfg : Config) (st : State) : List CallSpec → State
  | [] => st
  | c :: cs => runCalls cfg (runCall cfg st c).2 cs

/-- One direct `add_model` call's arguments. -/
structure AddCall where
  name : String
  shape : Solid
  shape_type : String
  boundary : Boundary
deriving DecidableEq, Repr

/-- Run a sequence of direct `add_model` calls. -/
def runAdds (st : State) : List AddCall → State
  | [] => st
  | a :: rest => runAdds (add_model st a.name a.shape a.shape_type a.boundary).2 rest

/-- The literal label text of a boundary line. -/
def BLine.label : BLine → String
  | .range l _ _ => l
  | .center l _ _ => l
  | .scalar l _ => l

/-! ## Helper lemmas -/

theorem isValidAxis_elim {axi : String} (h : isValidAxis axi = true) :
    axi = "X" ∨ axi = "Y" ∨ axi = "Z" := by
  simpa [isValidAxis, or_assoc] using h

theorem isValidAxis_elim_false {axi : String} (h : isValidAxis axi = false) :
    axi ≠ "X" ∧ axi ≠ "Y" ∧ axi ≠ "Z" := by
  simpa [isValidAxis, and_assoc] using h

/-- A creation call with a valid axis, a passing token and a registry below
the limit succeeds and appends one model whose id is the previous count
plus one. -/
theorem runCall_success (cfg : Config) (st : State) (c : CallSpec)
    (htok : validate_server_access cfg.server_token = true)
    (hax : isValidAxis c.axis = true)
    (hlen : st.models.length < maxModels cfg) :
    (runCall cfg st c).2.models.map ModelInfo.id
      = st.models.map ModelInfo.id ++ [st.models.length + 1] ∧
    (runCall cfg st c).2.models.length = st.models.length + 1 := by
  have hnot : ¬ st.models.length ≥ maxModels cfg := Nat.not_le.mpr hlen
  cases c with
  | box n a x1 x2 w h es ee =>
    rcases isValidAxis_elim hax with h1 | h1 | h1 <;> subst h1 <;>
      simp [runCall, create_box_Axi_W_H, htok, hnot, boxPlacement, add_model]
  | cyl n a x1 x2 r es ee =>
    rcases isValidAxis_elim hax with h1 | h1 | h1 <;> subst h1 <;>
      simp [runCall, create_cylinder_Axi_R, htok, hnot, cylinderPlacement, add_model]

/-- Ids after a run of successful creation calls: previous ids followed by
the consecutive range starting just above the previous count. -/
theorem runCalls_ids (cfg : Config)
    (htok : validate_server_access cfg.server_token = true) :
    ∀ (calls : List CallSpec) (st : State),
      (∀ c ∈ calls, isValidAxis c.axis = true) →
      st.models.length + calls.length ≤ maxModels cfg →
      (runCalls cfg st calls).models.map ModelInfo.id
        = st.models.map ModelInfo.id
          ++ List.range' (st.models.length + 1) calls.length := by
  intro calls
  induction calls with
  | nil => intro st _ _; simp [runCalls]
  | cons c cs ih =>
    intro st hax hlen
    have hc : isValidAxis c.axis = true := hax c (by simp)
    have hlt : st.models.length < maxModels cfg := by
      simp only [List.length_cons] at hlen; omega
    obtain ⟨hmap, hlena⟩ := runCall_success cfg st c htok hc hlt
    have hrest := ih (runCall cfg st c).2
      (fun x hx => hax x (List.mem_cons_of_mem _ hx))
      (by simp only [List.length_cons] at hlen; omega)
    rw [runCalls, hrest, hmap, hlena]
    simp [List.range'_succ, List.append_assoc]

theorem runAdds_assembly : ∀ (l : List AddCall) (st : State),
    (runAdds st l).assembly = st.assembly ++ l.map AddCall.shape := by
  intro l
  induction l with
  | nil => intro st; simp [runAdds]
  | cons a rest ih => intro st; rw [runAdds, ih]; simp [add_model]

theorem planeNormal_YZ : planeNormal "YZ" = (1, 0, 0) := rfl

theorem planeNormal_XZ : planeNormal "XZ" = (0, 1, 0) := rfl

theorem planeNormal_XY : planeNormal "XY" = (0, 0, 1) := rfl

theorem axisSlotInsert_X (v x1 x2 : ℚ) : axisSlotInsert "X" v x1 x2 = (v, x1, x2) := rfl

theorem axisSlotInsert_Y (v x1 x2 : ℚ) : axisSlotInsert "Y" v x1 x2 = (x1, v, x2) := rfl

theorem axisSlotInsert_Z (v x1 x2 : ℚ) : axisSlotInsert "Z" v x1 x2 = (x1, x2, v) := rfl

theorem boxBoundary_Z (x1 x2 w h es ee : ℚ) :
    boxBoundary "Z" x1 x2 w h es ee
      = [.range "X_boundary" (x1 - w / 2) (x1 + w / 2),
         .range "Y_boundary" (x2 - h / 2) (x2 + h / 2),
         .range "Height" es ee] := rfl

/-! ## Claim theorems -/

/-- C1: for every valid axis and arbitrary parameters, a run of N
successful create calls (box or cylinder, in any mix) from an empty
registry assigns model ids exactly 1..N in call order, and each
`add_model` assigns id = current model count + 1. -/
theorem C1_create_run_ids (cfg : Config) (calls : List CallSpec)
    (htok : validate_server_access cfg.server_token = true)
    (hax : ∀ c ∈ calls, isValidAxis c.axis = true)
    (hcap : calls.length ≤ maxModels cfg) :
    (runCalls cfg initState calls).models.map ModelInfo.id
      = List.range' 1 calls.length ∧
    ∀ (st : State) (n : String) (sh : Solid) (ty : String) (b : Boundary),
      (add_model st n sh ty b).1.id = st.models.length + 1 := by
  constructor
  · have h := runCalls_ids cfg htok calls initState hax
      (by simpa [initState] using hcap)
    simpa [initState] using h
  · intro st n sh ty b; rfl

/-- Witness for C1: a concrete two-call run (one box, one cylinder) under
the default configuration yields ids `[1, 2]`. -/
theorem C1_create_run_ids_witness :
    validate_server_access ({} : Config).server_token = true ∧
    (∀ c ∈ [CallSpec.box "base" "X" 0 0 1 1 0 1,
            CallSpec.cyl "pin" "Z" 0 0 1 0 1],
      isValidAxis c.axis = true) ∧
    ([CallSpec.box "base" "X" 0 0 1 1 0 1,
      CallSpec.cyl "pin" "Z" 0 0 1 0 1].length ≤ maxModels {}) ∧
    ((runCalls {} initState
        [CallSpec.box "base" "X" 0 0 1 1 0 1,
         CallSpec.cyl "pin" "Z" 0 0 1 0 1]).models.map ModelInfo.id
      = List.range' 1 2) :=
  ⟨by decide, by decide, by decide,
    (C1_create_run_ids {} _ (by decide) (by decide) (by decide)).1⟩

/-- C6: `clear_all` followed by one `add_model` yields a model with id 1,
regardless of prior history. -/
theorem C6_clear_then_add_id_one (s : State) (name : String) (shape : Solid)
    (ty : String) (b : Boundary) :
    (add_model (clear_all s) name shape ty b).1.id = 1 := rfl

/-- C7: after N `add_model` calls since the last clear, the combined
assembly contains exactly the N merged solids in call order; immediately
after `clear_all` it contains 0 solids. -/
theorem C7_assembly_contents (s : State) (l : List AddCall) :
    get_combined_model (runAdds (clear_all s) l) = l.map AddCall.shape ∧
    (get_combined_model (runAdds (clear_all s) l)).length = l.length ∧
    get_combined_model (clear_all s) = [] := by
  have h : get_combined_model (runAdds (clear_all s) l) = l.map AddCall.shape := by
    rw [get_combined_model, runAdds_assembly]
    simp [clear_all]
  exact ⟨h, by rw [h]; simp, rfl⟩

/-- C2: for every valid axis and all parameters, the placement handed to
the geometry kernel applies `extrudeStart` twice along the plane normal:
once inserted into the axis's slot of the first workplane origin (the other
two slots holding origin1 and origin2 in fixed order) and once more as the
second workplane call's offset, so the actual resulting plane position is
the doubled-offset point, identically for the box and cylinder paths. -/
theorem C2_double_offset (axi : String) (hax : isValidAxis axi = true)
    (x1 x2 w h r es ee : ℚ) :
    ∃ pb pc : Solid,
      boxPlacement axi x1 x2 w h es ee = some pb ∧
      cylinderPlacement axi x1 x2 r es ee = some pc ∧
      pb.plane = remainingPlane axi ∧
      pb.origin = axisSlotInsert axi es x1 x2 ∧
      pb.offset = es ∧
      resultingPlanePos pb = axisSlotInsert axi (2 * es) x1 x2 ∧
      pc.plane = pb.plane ∧ pc.origin = pb.origin ∧ pc.offset = pb.offset ∧
      resultingPlanePos pc = resultingPlanePos pb := by
  rcases isValidAxis_elim hax with h1 | h1 | h1 <;> subst h1 <;>
    refine ⟨_, _, rfl, rfl, rfl, rfl, rfl, ?_, rfl, rfl, rfl, rfl⟩ <;>
    · simp only [resultingPlanePos, planeNormal_YZ, planeNormal_XZ,
        planeNormal_XY, axisSlotInsert_X, axisSlotInsert_Y, axisSlotInsert_Z]
      norm_num
      try ring

/-- Witness for C2: at axis `"Y"` with origin `(3, 4)` and
`extrudeStart = 5`, the resulting plane position is `(3, 10, 4)` — the
doubled offset `10 = 2·5` in the Y slot, not the single offset `5`. -/
theorem C2_double_offset_witness :
    isValidAxis "Y" = true ∧
    ∃ pb pc : Solid,
      boxPlacement "Y" 3 4 1 1 5 9 = some pb ∧
      cylinderPlacement "Y" 3 4 2 5 9 = some pc ∧
      pb.plane = remainingPlane "Y" ∧
      pb.origin = axisSlotInsert "Y" 5 3 4 ∧
      pb.offset = 5 ∧
      resultingPlanePos pb = axisSlotInsert "Y" (2 * 5) 3 4 ∧
      pc.plane = pb.plane ∧ pc.origin = pb.origin ∧ pc.offset = pb.offset ∧
      resultingPlanePos pc = resultingPlanePos pb :=
  ⟨by decide, C2_double_offset "Y" (by decide) 3 4 1 1 2 5 9⟩

/-- C3 counterexample: for the box with axis=Z, origin=(0,0), width=10,
height=4, extrudeStart=0, extrudeEnd=5, the reported ranges are X [-5,5],
Y [-2,2] and extrusion [0,5], but the line carrying the extrusion range is
labeled `Height`, not a `Z` label: the claimed label list
`X_boundary / Y_boundary / Z_boundary` does not match, and no line of the
boundary carries a `Z_boundary` label. -/
theorem C3_z_label_counterexample :
    (boxBoundary "Z" 0 0 10 4 0 5).map BLine.label
      = ["X_boundary", "Y_boundary", "Height"] ∧
    (boxBoundary "Z" 0 0 10 4 0 5).map BLine.label
      ≠ ["X_boundary", "Y_boundary", "Z_boundary"] ∧
    ∀ l ∈ boxBoundary "Z" 0 0 10 4 0 5, BLine.label l ≠ "Z_boundary" := by
  refine ⟨by decide, by decide, ?_⟩
  decide

/-- C3 amended: the box boundary for axis=Z, origin=(0,0), width=10,
height=4, extrudeStart=0, extrudeEnd=5 reports X range [-5,5] under label
`X_boundary`, Y range [-2,2] under label `Y_boundary`, and the extrusion
(global-Z) range [0,5] under the label `Height`. -/
theorem C3_box_boundary_axis_Z :
    boxBoundary "Z" 0 0 10 4 0 5
      = [BLine.range "X_boundary" (-5) 5,
         BLine.range "Y_boundary" (-2) 2,
         BLine.range "Height" 0 5] := by
  simp only [boxBoundary_Z, List.cons.injEq, BLine.range.injEq, and_true,
    true_and, List.cons_ne_nil]
  norm_num

/-- C4: for every valid axis, the cylinder boundary reports the extrusion
range on the chosen axis, the circle center (origin1, origin2) on the
remaining plane, and a separate radius line. -/
theorem C4_cylinder_boundary (axi : String) (hax : isValidAxis axi = true)
    (x1 x2 r es ee : ℚ) :
    cylinderBoundary axi x1 x2 r es ee
      = [BLine.range (String.append axi "_boundary") es ee,
         BLine.center (String.append (remainingPlane axi) "_circle_center") x1 x2,
         BLine.scalar "Radius" r] := by
  rcases isValidAxis_elim hax with h1 | h1 | h1 <;> subst h1 <;> rfl

/-- Witness for C4: the cylinder with axis=X, origin=(2,3), radius=1.5,
extrudeStart=-1, extrudeEnd=1 reports X range [-1,1], YZ circle center
(2,3) and radius 1.5. -/
theorem C4_cylinder_boundary_witness :
    isValidAxis "X" = true ∧
    cylinderBoundary "X" 2 3 (3 / 2) (-1) 1
      = [BLine.range "X_boundary" (-1) 1,
         BLine.center "YZ_circle_center" 2 3,
         BLine.scalar "Radius" (3 / 2)] :=
  ⟨by decide, C4_cylinder_boundary "X" (by decide) 2 3 (3 / 2) (-1) 1⟩

/-- C5: for every axis value outside X/Y/Z, the box and cylinder creation
operations produce no placement and declare no error for it — when the call
reaches the placement step the outcome is the unhandled-axis case — and in
every situation the registry state is unchanged and no model record is
returned. -/
theorem C5_invalid_axis (cfg : Config) (st : State) (name axi : String)
    (x1 x2 w h r es ee : ℚ) (hax : isValidAxis axi = false) :
    (create_box_Axi_W_H cfg st name axi x1 x2 w h es ee).2 = st ∧
    (create_cylinder_Axi_R cfg st name axi x1 x2 r es ee).2 = st ∧
    (∀ info t, (create_box_Axi_W_H cfg st name axi x1 x2 w h es ee).1
      ≠ .ok info t) ∧
    (∀ info t, (create_cylinder_Axi_R cfg st name axi x1 x2 r es ee).1
      ≠ .ok info t) ∧
    (validate_server_access cfg.server_token = true →
      st.models.length < maxModels cfg →
      (create_box_Axi_W_H cfg st name axi x1 x2 w h es ee).1 = .axisUnhandled ∧
      (create_cylinder_Axi_R cfg st name axi x1 x2 r es ee).1 = .axisUnhandled) := by
  obtain ⟨h1, h2, h3⟩ := isValidAxis_elim_false hax
  have hbox : boxPlacement axi x1 x2 w h es ee = none := by
    simp [boxPlacement, h1, h2, h3]
  have hcyl : cylinderPlacement axi x1 x2 r es ee = none := by
    simp [cylinderPlacement, h1, h2, h3]
  unfold create_box_Axi_W_H create_cylinder_Axi_R
  rw [hbox, hcyl]
  refine ⟨?_, ?_, ?_, ?_, ?_⟩
  · split_ifs <;> rfl
  · split_ifs <;> rfl
  · intro info t; split_ifs <;> simp
  · intro info t; split_ifs <;> simp
  · intro htok hlt
    have hc1 : ¬ ¬ validate_server_access cfg.server_token = true := by
      simp [htok]
    have hc2 : ¬ st.models.length ≥ maxModels cfg := Nat.not_le.mpr hlt
    rw [if_neg hc1, if_neg hc2]
    exact ⟨rfl, rfl⟩

/-- Witness for C5: a call with axis `"A"` under the default configuration
leaves the empty registry unchanged and hits the unhandled-axis outcome. -/
theorem C5_invalid_axis_witness :
    isValidAxis "A" = false ∧
    ((create_box_Axi_W_H {} initState "m" "A" 0 0 1 1 0 1).2 = initState ∧
     (create_cylinder_Axi_R {} initState "m" "A" 0 0 1 0 1).2 = initState ∧
     (∀ info t, (create_box_Axi_W_H {} initState "m" "A" 0 0 1 1 0 1).1
       ≠ .ok info t) ∧
     (∀ info t, (create_cylinder_Axi_R {} initState "m" "A" 0 0 1 0 1).1
       ≠ .ok info t) ∧
     (validate_server_access ({} : Config).server_token = true →
       initState.models.length < maxModels {} →
       (create_box_Axi_W_H {} initState "m" "A" 0 0 1 1 0 1).1 = .axisUnhandled ∧
       (create_cylinder_Axi_R {} initState "m" "A" 0 0 1 0 1).1 = .axisUnhandled)) :=
  ⟨by decide, C5_invalid_axis {} initState "m" "A" 0 0 1 1 1 0 1 (by decide)⟩

/-- C8: for all inputs (including extrudeEnd ≤ extrudeStart and
non-positive width/height/radius), the extrusion length handed to the
geometry kernel is exactly extrudeEnd − extrudeStart, unvalidated, for
both the box and the cylinder path. -/
theorem C8_extrusion_length (axi : String) (hax : isValidAxis axi = true)
    (x1 x2 w h r es ee : ℚ) :
    (boxPlacement axi x1 x2 w h es ee).map Solid.length = some (ee - es) ∧
    (cylinderPlacement axi x1 x2 r es ee).map Solid.length = some (ee - es) := by
  rcases isValidAxis_elim hax with h1 | h1 | h1 <;> subst h1 <;> exact ⟨rfl, rfl⟩

/-- Witness for C8: with extrudeStart = 5 and extrudeEnd = 2 (and zero
width/height/radius) the passed-through length is the negative value -3. -/
theorem C8_extrusion_length_witness :
    isValidAxis "X" = true ∧
    (boxPlacement "X" 0 0 0 0 5 2).map Solid.length = some (-3) ∧
    (cylinderPlacement "X" 0 0 0 5 2).map Solid.length = some (-3) := by
  have h := C8_extrusion_length "X" (by decide) 0 0 0 0 0 5 2
  refine ⟨by decide, ?_, ?_⟩
  · rw [h.1]; norm_num
  · rw [h.2]; norm_num

/-- C9: when the renderer raises an exception with text `e`, the
visualization operation returns the structured failure outcome carrying
the message `"可视化失败: " ++ e` and the error text `e` instead of letting
it escape, and the registry state is unchanged by the visualization path
for every configuration, state and renderer outcome. -/
theorem C9_render_failure_caught (cfg : Config) (st : State)
    (width height : ℕ) (screenshot : Option String) (interact : Bool)
    (e : String)
    (htok : validate_server_access cfg.server_token = true)
    (hm : st.models ≠ []) :
    (visualize_models cfg st width height screenshot interact
        (Except.error e)).1
      = VisResult.renderFailed (String.append "可视化失败: " e) e ∧
    ∀ (cfg' : Config) (st' : State) (o : Except String Unit),
      (visualize_models cfg' st' width height screenshot interact o).2 = st' := by
  constructor
  · unfold visualize_models
    rw [if_neg (by simp [htok]), if_neg (by simpa using hm)]
  · intro cfg' st' o
    unfold visualize_models
    split_ifs <;> first | rfl | (cases o <;> rfl)

/-- Witness for C9: a registry holding one model, the default
configuration and a renderer raising `"no display"`. -/
theorem C9_render_failure_caught_witness :
    validate_server_access ({} : Config).server_token = true ∧
    (State.mk [ModelInfo.mk 1 "m" "box" []] []).models ≠ [] ∧
    (visualize_models {} (State.mk [ModelInfo.mk 1 "m" "box" []] []) 800 600
        none true (Except.error "no display")).1
      = VisResult.renderFailed
          (String.append "可视化失败: " "no display") "no display" :=
  ⟨by decide, by decide,
    (C9_render_failure_caught {} (State.mk [ModelInfo.mk 1 "m" "box" []] [])
      800 600 none true "no display" (by decide) (by decide)).1⟩

/-- C10: when the registry already holds at least `max_models` models
(100 when the session configuration supplies no value), both creation
operations return an error outcome instead of a model record and leave the
registry unchanged; with a passing token the outcome is exactly the
limit-error message. -/
theorem C10_model_limit (cfg : Config) (st : State) (name axi : String)
    (x1 x2 w h r es ee : ℚ)
    (hfull : maxModels cfg ≤ st.models.length) :
    (create_box_Axi_W_H cfg st name axi x1 x2 w h es ee).2 = st ∧
    (create_cylinder_Axi_R cfg st name axi x1 x2 r es ee).2 = st ∧
    (∀ info t, (create_box_Axi_W_H cfg st name axi x1 x2 w h es ee).1
      ≠ .ok info t) ∧
    (∀ info t, (create_cylinder_Axi_R cfg st name axi x1 x2 r es ee).1
      ≠ .ok info t) ∧
    (validate_server_access cfg.server_token = true →
      (create_box_Axi_W_H cfg st name axi x1 x2 w h es ee).1
        = .limitError (maxModels cfg) ∧
      (create_cylinder_Axi_R cfg st name axi x1 x2 r es ee).1
        = .limitError (maxModels cfg)) ∧
    (∀ c : Config, c.max_models = none → maxModels c = 100) := by
  have hge : st.models.length ≥ maxModels cfg := hfull
  unfold create_box_Axi_W_H create_cylinder_Axi_R
  refine ⟨?_, ?_, ?_, ?_, ?_, ?_⟩
  · split_ifs <;> rfl
  · split_ifs <;> rfl
  · intro info t
    split_ifs <;> simp
  · intro info t
    split_ifs <;> simp
  · intro htok
    have hc1 : ¬ ¬ validate_server_access cfg.server_token = true := by
      simp [htok]
    refine ⟨?_, ?_⟩ <;> rw [if_neg hc1, if_pos hge]
  · intro c hc
    simp [maxModels, hc]

/-- Witness for C10: a configuration with `max_models = 0` and the empty
registry — the limit is already reached, so both creations report the
limit error and change nothing. -/
theorem C10_model_limit_witness :
    maxModels (Config.mk false (some 0) none) ≤ initState.models.length ∧
    ((create_box_Axi_W_H (Config.mk false (some 0) none) initState
        "m" "X" 0 0 1 1 0 1).2 = initState ∧
     (create_cylinder_Axi_R (Config.mk false (some 0) none) initState
        "m" "X" 0 0 1 0 1).2 = initState ∧
     (∀ info t, (create_box_Axi_W_H (Config.mk false (some 0) none) initState
        "m" "X" 0 0 1 1 0 1).1 ≠ .ok info t) ∧
     (∀ info t, (create_cylinder_Axi_R (Config.mk false (some 0) none) initState
        "m" "X" 0 0 1 0 1).1 ≠ .ok info t) ∧
     (validate_server_access (Config.mk false (some 0) none).server_token = true →
       (create_box_Axi_W_H (Config.mk false (some 0) none) initState
          "m" "X" 0 0 1 1 0 1).1
         = .limitError (maxModels (Config.mk false (some 0) none)) ∧
       (create_cylinder_Axi_R (Config.mk false (some 0) none) initState
          "m" "X" 0 0 1 0 1).1
         = .limitError (maxModels (Config.mk false (some 0) none))) ∧
     (∀ c : Config, c.max_models = none → maxModels c = 100)) :=
  ⟨by decide, C10_model_limit (Config.mk false (some 0) none) initState
    "m" "X" 0 0 1 1 1 0 1 (by decide)⟩

end CQMCP
